import Mathlib

/-!
Shallow embedding of the indiekit-endpoint-lastfm plugin, for checking its
natural-language specification against the code.

Sources embedded (JavaScript):
* `src/lib/utils.js` — field normalizer: `parseDate`, `getArtistName`,
  `getAlbumName`, `getCoverUrl`, `getTrackUrl`, `getMbid`, `getPlayingStatus`.
* `src/lib/lastfm-client.js` — `LastFmClient.fetch` error handling,
  `getAllRecentTracks`, `getNewScrobbles` pagination loops.
* `src/lib/sync.js` — stats cache (`getCachedStats` / `setCachedStats`),
  `runSync`, `syncScrobbles`, `transformScrobble`, `startSync` scheduling.
* `src/lib/controllers/dashboard.js` and the stats/scrobbles controllers —
  boundary classification of errors and the 503 "not available yet" path.

Modelling conventions:
* JS timestamps are epoch milliseconds, embedded as `Int`.
* A JS `Date` value is embedded as its epoch-millisecond `Int`; `new Date()`
  is an explicit `nowMs` parameter.
* Optional / possibly-`undefined` JS string fields are `Option String`;
  JS truthiness of such a field is `strTruthy` (absent and `""` are falsy).
* `fetch` responses, database outcomes and thrown exceptions are explicit
  data (`Except`), so that exception propagation is visible in the types.
* JS number division in `getPlayingStatus` is embedded as division in `ℚ`
  (exact at every comparison made by the code).
-/

namespace LastFm

/-- JS truthiness of a possibly-absent string field: `undefined`, `null` and
`""` are falsy, every other string is truthy. -/
def strTruthy : Option String → Bool
  | some s => !s.isEmpty
  | none => false

/-- JS `a || b` on possibly-absent string fields (used by the settings
merge in `sync.js` / `config.js`). -/
def jsOr (a fallback : Option String) : Option String :=
  if strTruthy a then a else fallback

/-- JS `Array.prototype.indexOf`: index of the first occurrence, `-1` when
absent (`utils.js` line 68). -/
def jsIndexOf (l : List String) (x : String) : Int :=
  match l.findIdx? (fun s => s == x) with
  | some i => (i : Int)
  | none => -1

/-- JS `Array.prototype.slice(start)` with a possibly negative start
(`utils.js` line 70). -/
def jsSliceFrom (l : List String) (start : Int) : List String :=
  let n : Int := l.length
  let s := if start < 0 then max (n + start) 0 else min start n
  l.drop s.toNat

/-- JS `Array.prototype.slice(start, stop)` with possibly negative bounds
(`utils.js` line 71). -/
def jsSlice (l : List String) (start stop : Int) : List String :=
  let n : Int := l.length
  let s := if start < 0 then max (n + start) 0 else min start n
  let e := if stop < 0 then max (n + stop) 0 else min stop n
  (l.take e.toNat).drop s.toNat

/-- One entry of a Last.fm `image` array: a `size` tag and the `"#text"`
URL field (possibly empty). -/
structure Image where
  size : String
  text : String
deriving DecidableEq, Repr

/-- The `date` field of an upstream track, as consumed by
`parseDate` (`utils.js` lines 109–119): either a Last.fm date object with a
(numeric-string) `uts` field, or a value that `new Date(x)` resolves to the
given epoch milliseconds (a `Date` or ISO string). -/
inductive DateInput where
  | utsObj (uts : Int)
  | dateVal (ms : Int)
deriving DecidableEq, Repr

/-- `utils.js` `parseDate`: missing/falsy input yields the current time
(`new Date()`), a `uts` Unix-seconds field is scaled to milliseconds,
anything else is passed to the `Date` constructor. Total: it always
produces a date value. -/
def parseDate : Option DateInput → Int → Int
  | none, nowMs => nowMs
  | some (.utsObj uts), _ => uts * 1000
  | some (.dateVal ms), _ => ms

/-- The `artist` field in object form: optional `name`, `"#text"` and
`mbid` sub-fields. -/
structure ArtistObj where
  name : Option String
  text : Option String
  mbid : Option String
deriving DecidableEq, Repr

/-- The `artist` field of an upstream track: an object or a bare string. -/
inductive ArtistField where
  | obj (a : ArtistObj)
  | str (s : String)
deriving DecidableEq, Repr

/-- `utils.js` `getArtistName`: extended-format `artist.name`, then
standard-format `artist["#text"]`, then a bare string, else the literal
`"Unknown Artist"`. -/
def getArtistName : Option ArtistField → String
  | none => "Unknown Artist"
  | some (.obj a) =>
    if strTruthy a.name then a.name.getD ""
    else if strTruthy a.text then a.text.getD ""
    else "Unknown Artist"
  | some (.str s) => s

/-- The `album` field in object form: optional `"#text"` and `mbid`. -/
structure AlbumObj where
  text : Option String
  mbid : Option String
deriving DecidableEq, Repr

/-- The `album` field of an upstream track: an object or a bare string. -/
inductive AlbumField where
  | obj (a : AlbumObj)
  | str (s : String)
deriving DecidableEq, Repr

/-- `utils.js` `getAlbumName`: falsy album (absent, or the empty string)
yields `null`; an object's truthy `"#text"` wins; a bare non-empty string is
returned; otherwise `null`. -/
def getAlbumName : Option AlbumField → Option String
  | none => none
  | some (.str s) => if s.isEmpty then none else some s
  | some (.obj a) => if strTruthy a.text then some (a.text.getD "") else none

/-- `utils.js` line 67: the fixed size-priority order for cover art. -/
def sizePriority : List String := ["extralarge", "large", "medium", "small"]

/-- `utils.js` lines 68–72: `startIndex = sizePriority.indexOf(preferredSize)`
and `orderedSizes = [...sizePriority.slice(startIndex),
...sizePriority.slice(0, startIndex)]`. -/
def jsOrderedSizes (preferredSize : String) : List String :=
  let startIndex := jsIndexOf sizePriority preferredSize
  jsSliceFrom sizePriority startIndex ++ jsSlice sizePriority 0 startIndex

/-- `utils.js` lines 74–83: the `for (const size of orderedSizes)` loop —
return the `"#text"` of the first image found for a tried size when that
text is truthy — followed by the fall-back to any image with a truthy
`"#text"` (`anyImg?.["#text"] || null`). -/
def coverFromOrder (imgs : List Image) (orderedSizes : List String) : Option String :=
  match orderedSizes.findSome? (fun size =>
      match imgs.find? (fun i => i.size == size) with
      | some img => if !img.text.isEmpty then some img.text else none
      | none => none) with
  | some url => some url
  | none =>
    match imgs.find? (fun i => !i.text.isEmpty) with
    | some img => if img.text.isEmpty then none else some img.text
    | none => none

/-- `utils.js` `getCoverUrl`: rotate `sizePriority` to start at the
preferred size, select the first tried size whose found image has a
non-empty URL, with the any-usable-URL fall-back.  The track's `image`
field is `none` when absent or not an array (line 64). -/
def getCoverUrl (image : Option (List Image)) (preferredSize : String) : Option String :=
  match image with
  | none => none
  | some imgs => coverFromOrder imgs (jsOrderedSizes preferredSize)

/-- A full upstream track object, restricted to the fields the embedded
functions consume.  `nowplaying` is `track["@attr"]?.nowplaying`. -/
structure Scrobble where
  name : String
  url : Option String
  mbid : Option String
  artist : Option ArtistField
  album : Option AlbumField
  image : Option (List Image)
  date : Option DateInput
  loved : Option String
  nowplaying : Option String
deriving DecidableEq, Repr

/-- `utils.js` `getTrackUrl`: `track?.url || null`. -/
def getTrackUrl (t : Scrobble) : Option String :=
  if strTruthy t.url then t.url else none

/-- `utils.js` `getMbid`: `track?.mbid || null`. -/
def getMbid (t : Scrobble) : Option String :=
  if strTruthy t.mbid then t.mbid else none

/-- The pagination filters in `lastfm-client.js` (lines 124 and 152) drop a
track whose `@attr.nowplaying` is truthy: `!t["@attr"]?.nowplaying`. -/
def isNowPlaying (t : Scrobble) : Bool :=
  strTruthy t.nowplaying

/-- `utils.js` `getPlayingStatus`: the explicit `nowplaying === "true"`
marker wins; otherwise the age of the parsed timestamp in minutes
(JS number division, exact here in `ℚ`) is classified:
under 60 minutes → now-playing, under 24·60 minutes → recently-played,
else no status. -/
def getPlayingStatus (t : Scrobble) (nowMs : Int) : Option String :=
  if t.nowplaying = some "true" then some "now-playing"
  else
    let date := parseDate t.date nowMs
    let diffMs : Int := nowMs - date
    let diffMins : ℚ := (diffMs : ℚ) / 60000
    if diffMins < 60 then some "now-playing"
    else if diffMins < 24 * 60 then some "recently-played"
    else none

/-- `scrobble.artist?.mbid || null` (`sync.js` line 249). -/
def artistMbidOf : Option ArtistField → Option String
  | some (.obj a) => if strTruthy a.mbid then a.mbid else none
  | _ => none

/-- `scrobble.album?.mbid || null` (`sync.js` line 251). -/
def albumMbidOf : Option AlbumField → Option String
  | some (.obj a) => if strTruthy a.mbid then a.mbid else none
  | _ => none

/-- A document of the `scrobbles` collection, as built by
`transformScrobble` in `sync.js`. -/
structure Doc where
  lastfmId : String
  trackTitle : String
  trackUrl : Option String
  artistName : String
  artistMbid : Option String
  albumTitle : Option String
  albumMbid : Option String
  mbid : Option String
  coverUrl : Option String
  loved : Bool
  scrobbledAt : Int
  syncedAt : Int
deriving DecidableEq, Repr

/-- `sync.js` `transformScrobble`: normalize one upstream track into the
stored schema.  `nowMs` is the wall clock at transformation time, used both
for `parseDate`'s missing-date default and for `syncedAt` (`new Date()`). -/
def transformScrobble (s : Scrobble) (nowMs : Int) : Doc :=
  let scrobbledAt := parseDate s.date nowMs
  let artistName := getArtistName s.artist
  let albumTitle := getAlbumName s.album
  { lastfmId := artistName ++ ":" ++ s.name ++ ":" ++ toString scrobbledAt
    trackTitle := s.name
    trackUrl := getTrackUrl s
    artistName := artistName
    artistMbid := artistMbidOf s.artist
    albumTitle := albumTitle
    albumMbid := albumMbidOf s.album
    mbid := getMbid s
    coverUrl := getCoverUrl s.image "extralarge"
    loved := s.loved == some "1"
    scrobbledAt := scrobbledAt
    syncedAt := nowMs }

/-!
### Remote client (`src/lib/lastfm-client.js`)

The upstream API is external to the repository; a cycle's view of it is a
function from page number to the (already JSON-decoded) track list of that
page, plus the `totalPages` pagination attribute.  `totalPages` models the
value of `parseInt(response.recenttracks?.["@attr"]?.totalPages) || 1`
computed in each loop iteration, so it is a natural number and the real code
can never observe the value `0` (falsy `0`/`NaN` defaults to `1`; the loop
condition `page < totalPages` behaves identically for `0` and `1`).
-/

/-- The upstream's response to the (fixed-parameter) paginated request a
sync cycle issues: `user.getRecentTracks` with `limit = 200` and, for the
incremental path, the watermark `from` timestamp. -/
structure Upstream where
  pages : Nat → List Scrobble
  totalPages : Nat

/-- The `tracks.filter((t) => !t["@attr"]?.nowplaying)` step shared by both
pagination loops (`lastfm-client.js` lines 124 and 152). -/
def filterScrobbled (tracks : List Scrobble) : List Scrobble :=
  tracks.filter (fun t => !isNowPlaying t)

/-- The `while (hasMore && page <= maxPages)` loop of
`getAllRecentTracks` (`lastfm-client.js` lines 119–130), written with
explicit fuel.  Each iteration fetches one page of 200, filters out the
now-playing entry, and continues while `page < totalPages`.  Fuel
`maxPages` suffices because the loop also stops at `page > maxPages`. -/
def getAllRecentTracksLoop (u : Upstream) (maxPages : Nat) : Nat → Nat → List Scrobble
  | 0, _ => []
  | fuel + 1, page =>
    if page ≤ maxPages then
      let scrobbled := filterScrobbled (u.pages page)
      if page < u.totalPages then
        scrobbled ++ getAllRecentTracksLoop u maxPages fuel (page + 1)
      else scrobbled
    else []

/-- `lastfm-client.js` `getAllRecentTracks(maxPages)`: paginate from page 1,
at most `maxPages` pages. -/
def getAllRecentTracks (u : Upstream) (maxPages : Nat) : List Scrobble :=
  getAllRecentTracksLoop u maxPages maxPages 1

/-- The pages actually requested by `getAllRecentTracks`'s loop (same loop
structure, collecting the page numbers passed to `getRecentTracks`). -/
def pagesRequestedLoop (maxPages totalPages : Nat) : Nat → Nat → List Nat
  | 0, _ => []
  | fuel + 1, page =>
    if page ≤ maxPages then
      if page < totalPages then
        page :: pagesRequestedLoop maxPages totalPages fuel (page + 1)
      else [page]
    else []

/-- The list of page numbers `getAllRecentTracks` requests upstream. -/
def pagesRequested (u : Upstream) (maxPages : Nat) : List Nat :=
  pagesRequestedLoop maxPages u.totalPages maxPages 1

/-- The unbounded `while (hasMore)` loop of `getNewScrobbles`
(`lastfm-client.js` lines 147–158), with explicit fuel.  The loop visits
pages `1 .. totalPages` (at least page 1), so fuel `max totalPages 1`
realizes it exactly. -/
def getNewScrobblesLoop (u : Upstream) : Nat → Nat → List Scrobble
  | 0, _ => []
  | fuel + 1, page =>
    let scrobbled := filterScrobbled (u.pages page)
    if page < u.totalPages then
      scrobbled ++ getNewScrobblesLoop u fuel (page + 1)
    else scrobbled

/-- `lastfm-client.js` `getNewScrobbles(since)`: incremental fetch from the
watermark (the `from` parameter is part of the request `u` models). -/
def getNewScrobbles (u : Upstream) : List Scrobble :=
  getNewScrobblesLoop u (max u.totalPages 1) 1

/-- A decoded JSON body of an upstream response: the optional Last.fm
application-level `error` code and `message`. -/
structure LfmJson where
  errorCode : Option Nat
  message : String
deriving DecidableEq, Repr

/-- A transport-level upstream response as `LastFmClient.fetch` sees it:
`ok`/`status`/`statusText` from the `Response`, the `content-type` header
(`""` when absent, `lastfm-client.js` line 54), and the body's JSON decode
result (`none` when `response.json()` would throw). -/
structure HttpResponse where
  ok : Bool
  status : Nat
  statusText : String
  contentType : String
  jsonBody : Option LfmJson
deriving DecidableEq, Repr

/-- Whether a character sequence starts with the pattern. -/
def charsStartWith : List Char → List Char → Bool
  | [], _ => true
  | _ :: _, [] => false
  | p :: ps, c :: cs => p == c && charsStartWith ps cs

/-- Whether a character sequence contains the pattern as a contiguous run
(JS `String.prototype.includes`). -/
def charsContain (pat : List Char) : List Char → Bool
  | [] => charsStartWith pat []
  | c :: cs => charsStartWith pat (c :: cs) || charsContain pat cs

/-- `contentType.includes("application/json")` (`lastfm-client.js`
lines 58 and 69). -/
def includesJson (contentType : String) : Bool :=
  charsContain "application/json".data contentType.data

/-- How one call of `LastFmClient.fetch` ends (`lastfm-client.js`
lines 46–85): success with data, one of the typed `IndiekitError`s (which
carry the HTTP status), a plain `Error`, or a raw JSON-parse exception from
`response.json()`. -/
inductive FetchOutcome where
  | ok (data : LfmJson)
  | indiekitError (message : String) (status : Nat)
  | fromFetch (status : Nat)
  | jsError (message : String)
  | parseException
deriving DecidableEq, Repr

/-- The response-handling tail of `LastFmClient.fetch` (`lastfm-client.js`
lines 53–85): non-ok responses with a non-JSON content type raise a typed
`IndiekitError` carrying the status; non-ok JSON responses raise
`IndiekitError.fromFetch(response)`; ok non-JSON responses raise a plain
`Error`; otherwise the body is parsed (a parse failure is a raw exception)
and a truthy `data.error` raises a plain `Error`. -/
def clientFetch (r : HttpResponse) : FetchOutcome :=
  if !r.ok then
    if !includesJson r.contentType then
      .indiekitError ("Last.fm API returned " ++ toString r.status ++ ": " ++ r.statusText) r.status
    else .fromFetch r.status
  else if !includesJson r.contentType then
    .jsError "Last.fm API returned non-JSON response"
  else
    match r.jsonBody with
    | none => .parseException
    | some data =>
      match data.errorCode with
      | some code =>
        if code = 0 then .ok data
        else .jsError ("Last.fm API error " ++ toString code ++ ": " ++ data.message)
      | none => .ok data

/-- The `error.status` field visible to a controller's catch block: the
typed `IndiekitError`s carry the HTTP status, plain errors and parse
exceptions have no `status` field. -/
def errStatus : FetchOutcome → Option Nat
  | .indiekitError _ s => some s
  | .fromFetch s => some s
  | _ => none

/-- The error JSON a boundary controller sends. -/
structure ErrorJson where
  status : Nat
  retryable : Bool
deriving DecidableEq, Repr

/-- The catch block of `scrobblesController.api`
(`src/unnamed/part_000` lines 51–64): `status = error.status || 500`,
`retryable: status === 503 || status === 502`. -/
def controllerCatch (e : FetchOutcome) : ErrorJson :=
  let status :=
    match errStatus e with
    | some s => if s = 0 then 500 else s
    | none => 500
  { status := status, retryable := status == 503 || status == 502 }

/-!
### Sync engine (`src/lib/sync.js`)

The `scrobbles` collection is embedded as a `List Doc`; `updateOne` with
`upsert: true` on the composite key `(trackTitle, artistName, scrobbledAt)`
either overwrites the matching document in place or appends a new one.
-/

/-- The composite dedup key of the `scrobbles` collection
(`sync.js` lines 168–171 and 212–216). -/
structure ScrobbleKey where
  trackTitle : String
  artistName : String
  scrobbledAt : Int
deriving DecidableEq, Repr

/-- The composite key of a stored document. -/
def docKey (d : Doc) : ScrobbleKey :=
  ⟨d.trackTitle, d.artistName, d.scrobbledAt⟩

/-- One `collection.updateOne({key...}, {$set: doc}, {upsert: true})`
(`sync.js` lines 211–219): overwrite the documents matching the composite
key, or append the document when the key is absent.  The returned flag
tells whether a new row was written (an insert) rather than a
field-refresh of an existing row. -/
def upsertOne (store : List Doc) (d : Doc) : List Doc × Bool :=
  if store.any (fun e => docKey e == docKey d) then
    (store.map (fun e => if docKey e == docKey d then d else e), false)
  else (store ++ [d], true)

/-- `collection.findOne({}, {sort: {scrobbledAt: -1}})` followed by
`latest?.scrobbledAt || new Date(0)` (`sync.js` lines 179–180): the largest
stored `scrobbledAt`, or epoch 0 when the collection is empty.  (A `Date`
object is always truthy in JS, so `|| new Date(0)` fires only on an empty
collection.) -/
def latestScrobbledAt (store : List Doc) : Int :=
  match store.map (fun d => d.scrobbledAt) with
  | [] => 0
  | x :: xs => xs.foldl max x

/-- The fetch step of `syncScrobbles` (`sync.js` lines 186–195):
first-ever sync (`latestDate.getTime() === 0`) fetches at most 10 pages of
recent history, otherwise the incremental path fetches everything newer
than the watermark. -/
def syncFetch (store : List Doc) (u : Upstream) : List Scrobble :=
  if latestScrobbledAt store = 0 then getAllRecentTracks u 10
  else getNewScrobbles u

/-- The result object `syncScrobbles` / `runSync` resolve with. -/
structure SyncResult where
  synced : Nat
  error : Option String
deriving DecidableEq, Repr

/-- The per-document upsert loop of `syncScrobbles` (`sync.js`
lines 208–227): each document is upserted and `synced++` runs after every
successful `updateOne` — insert or field-refresh alike.  (The catch clause
only swallows duplicate-key races; the list model has no write errors.) -/
def upsertStep (acc : List Doc × Nat) (d : Doc) : List Doc × Nat :=
  ((upsertOne acc.1 d).1, acc.2 + 1)

/-- `sync.js` `syncScrobbles(db, client)`: find the watermark, fetch, short
circuit with `{synced: 0}` when nothing was fetched, else transform every
fetched scrobble and upsert it, reporting the loop's `synced` counter. -/
def syncScrobbles (store : List Doc) (u : Upstream) (nowMs : Int) :
    List Doc × SyncResult :=
  let newScrobbles := syncFetch store u
  if newScrobbles.length = 0 then (store, ⟨0, none⟩)
  else
    let docs := newScrobbles.map (fun s => transformScrobble s nowMs)
    let res := docs.foldl upsertStep (store, 0)
    (res.1, ⟨res.2, none⟩)

/-!
### Stats cache (`src/lib/sync.js` lines 7–31) and its read boundary
-/

/-- The module-level cache slot: `cachedStats` (initially `null`) and
`cachedStatsTime` (initially `null`).  `α` is the stats payload type. -/
structure CacheState (α : Type) where
  cachedStats : Option α
  cachedStatsTime : Option Int
deriving DecidableEq, Repr

/-- `sync.js` line 10: five minutes, in milliseconds. -/
def STATS_CACHE_TTL : Int := 300000

/-- `sync.js` `getCachedStats()`: `null` when the slot was never populated;
when the recorded write time is truthy and older than the TTL the stale
cache is returned anyway (the code comment: "Return stale cache, sync will
refresh"); otherwise the cache is returned. -/
def getCachedStats (st : CacheState α) (nowMs : Int) : Option α :=
  match st.cachedStats with
  | none => none
  | some stats =>
    match st.cachedStatsTime with
    | some t =>
      if nowMs - t > STATS_CACHE_TTL then some stats
      else some stats
    | none => some stats

/-- `sync.js` `setCachedStats(stats)`: atomically replace the slot and
record the write time. -/
def setCachedStats (stats : α) (nowMs : Int) : CacheState α :=
  ⟨some stats, some nowMs⟩

/-- Modelled from the claim's words (C9): a read accessor that simply
returns the current cache slot, ignoring the write timestamp and TTL. -/
def returnSlot (st : CacheState α) : Option α :=
  st.cachedStats

/-- A response of the public stats API (`statsController.api`,
`src/unnamed/part_000` lines 132–164), restricted to the no-database
branch: missing plugin config is a 500, an unpopulated cache is the 503
"Stats not available yet" path, a populated cache is served. -/
inductive StatsApiResponse (α : Type) where
  | ok (stats : α)
  | notConfigured
  | notReady
deriving DecidableEq, Repr

/-- The HTTP status of each `statsController.api` response shape. -/
def StatsApiResponse.status : StatsApiResponse α → Nat
  | .ok _ => 200
  | .notConfigured => 500
  | .notReady => 503

/-- The public-route branch of `statsController.api`: no database handle is
available, so the cached stats are served; an empty cache yields the 503
retry-shortly response rather than a hard error. -/
def statsApiPublic (configured : Bool) (st : CacheState α) (nowMs : Int) :
    StatsApiResponse α :=
  if !configured then .notConfigured
  else
    match getCachedStats st nowMs with
    | none => .notReady
    | some s => .ok s

/-!
### One `runSync` cycle (`src/lib/sync.js` lines 97–154)

The effectful sub-operations of a cycle (the settings lookup, the whole
`syncScrobbles` call including its upstream fetches, and the `getAllStats`
recomputation) are embedded by their outcomes: `Except String x` is a
resolved (`ok`) or rejected (`error`, the exception) promise.
-/

/-- The durable `lastfmMeta` settings document (`sync.js` lines 99–107). -/
structure SyncSettings where
  apiKey : Option String
  username : Option String
deriving DecidableEq, Repr

/-- Plugin options as seen by `runSync` (`index.js` defaults merged with
user options; only the fields `runSync` reads). -/
structure Options where
  apiKey : Option String
  username : Option String
deriving DecidableEq, Repr

/-- The outcomes of the effectful sub-operations of one cycle. -/
structure CycleEnv (α : Type) where
  hasDb : Bool
  settingsFind : Except String (Option SyncSettings)
  syncOutcome : Except String SyncResult
  statsOutcome : Except String α
deriving Repr

/-- `sync.js` `getEffectiveSyncOptions`: DB settings override env-var
options field-wise (`settings.apiKey || options.apiKey`); a lookup
exception or a missing settings document falls through to the options. -/
def getEffectiveSyncOptions (env : CycleEnv α) (options : Options) : Options :=
  match env.settingsFind with
  | .error _ => options
  | .ok none => options
  | .ok (some settings) =>
    { apiKey := jsOr settings.apiKey options.apiKey
      username := jsOr settings.username options.username }

/-- `sync.js` `runSync(Indiekit, options)`: no database or missing
credentials resolve to structured `{synced: 0, error: ...}` results; then
`await syncScrobbles(db, client)` runs with **no** enclosing try/catch, so
its rejection propagates out of `runSync`; the subsequent stats
recomputation is wrapped in try/catch (a failure is logged, the cache is
left untouched) and the sync result is returned.  The second component is
the stats-cache slot after the cycle. -/
def runSync (env : CycleEnv α) (options : Options) (cache : CacheState α)
    (nowMs : Int) : Except String SyncResult × CacheState α :=
  if !env.hasDb then (.ok ⟨0, some "No database"⟩, cache)
  else
    let effectiveOptions := getEffectiveSyncOptions env options
    if !strTruthy effectiveOptions.apiKey || !strTruthy effectiveOptions.username then
      (.ok ⟨0, some "Not configured"⟩, cache)
    else
      match env.syncOutcome with
      | .error e => (.error e, cache)
      | .ok result =>
        match env.statsOutcome with
        | .ok stats => (.ok result, setCachedStats stats nowMs)
        | .error _ => (.ok result, cache)

/-- A scheduler tick of `startSync` (`sync.js` lines 62–73): the interval
callback runs `runSync(...).catch(err => console.error(...))`, so a
rejected cycle is consumed by the handler and the timer keeps firing.  The
tick is a total function: it always yields the post-cycle cache state,
never an exception. -/
def schedulerTick (env : CycleEnv α) (options : Options) (cache : CacheState α)
    (nowMs : Int) : CacheState α :=
  match runSync env options cache nowMs with
  | (.error _, c) => c
  | (.ok _, c) => c

/-!
### Cycle interleaving (`startSync` in `sync.js`, `dashboardController.sync`)

Neither trigger site consults any "cycle in progress" state before calling
`runSync`: the `setInterval` callback (`sync.js` line 69) and the admin
route (`dashboard.js` line 128) invoke it unconditionally, and the module
keeps no such flag (`syncInterval` only stores the timer handle).  The
interleaving model counts cycles that have started and not yet completed;
each trigger event starts one cycle regardless of the current count.
-/

/-- Events that affect how many sync cycles are in flight. -/
inductive SyncTrigger where
  | timerFire
  | adminTrigger
  | cycleComplete
deriving DecidableEq, Repr

/-- The number of sync cycles currently executing against the store. -/
structure SchedulerState where
  activeCycles : Nat
deriving DecidableEq, Repr

/-- Effect of one event: both trigger sites start a cycle unconditionally
(no guard exists in the source), completion retires one. -/
def schedulerStep (s : SchedulerState) : SyncTrigger → SchedulerState
  | .timerFire => ⟨s.activeCycles + 1⟩
  | .adminTrigger => ⟨s.activeCycles + 1⟩
  | .cycleComplete => ⟨s.activeCycles - 1⟩

/-- Run an interleaving of timer fires, admin triggers and completions from
process start (no cycle active). -/
def schedulerRun (events : List SyncTrigger) : SchedulerState :=
  events.foldl schedulerStep ⟨0⟩

/-!
### Spec-side definition for the cover-URL selection (claim C8)

Written from the spec's words ("cycling through a fixed size-priority
ordering starting at the preferred size and wrapping; fall back to the
first variant with any usable URL; null if none"), to be compared with the
source-derived `getCoverUrl`.
-/

/-- The documented priority order rotated to start at the preferred size
and wrap around. -/
def specWrappedOrder (preferred : String) : List String :=
  match sizePriority.findIdx? (fun s => s == preferred) with
  | some i => sizePriority.drop i ++ sizePriority.take i
  | none => sizePriority

/-- Spec-side cover selection: the first variant of a tried size (in the
wrapped order) with a non-empty URL; else the first variant with any usable
URL; else null. -/
def specCoverUrl (imgs : List Image) (preferred : String) : Option String :=
  match (specWrappedOrder preferred).findSome? (fun size =>
      match imgs.find? (fun i => i.size == size) with
      | some img => if !img.text.isEmpty then some img.text else none
      | none => none) with
  | some url => some url
  | none =>
    match imgs.find? (fun i => !i.text.isEmpty) with
    | some img => some img.text
    | none => none

/-!
### Concrete scenario inputs used by counterexamples and witnesses
-/

/-- A completed play delivered by the upstream (no now-playing marker),
scrobbled at Unix second 1700000000. -/
def reSentScrobble : Scrobble :=
  { name := "Song", url := none, mbid := none, artist := some (.str "Artist")
    album := none, image := none, date := some (.utsObj 1700000000)
    loved := none, nowplaying := none }

/-- An upstream holding exactly one page with the single scrobble above —
in particular an upstream with no new data between two successive sync
cycles; its incremental response re-delivers the watermark item (the
`from` parameter of `user.getRecentTracks` is inclusive of the boundary
second). -/
def oneTrackUpstream : Upstream :=
  ⟨fun p => if p = 1 then [reSentScrobble] else [], 1⟩

/-- An upstream that returns no tracks at all. -/
def emptyUpstream : Upstream :=
  ⟨fun _ => [], 1⟩

/-- Wall clock of the example sync cycles. -/
def exampleNow : Int := 1700003600000

/-- Outcomes of a cycle whose upstream fetch inside `syncScrobbles`
failed (database present, credentials configured). -/
def fetchFailedEnv : CycleEnv Nat :=
  { hasDb := true, settingsFind := .ok none
    syncOutcome := .error "fetch failed", statsOutcome := .error "stats failed" }

/-- Plugin options with usable credentials. -/
def configuredOptions : Options :=
  ⟨some "key", some "user"⟩

/-- A rate-limited upstream response with an HTML error page body:
status 429, non-JSON content type, body not JSON-decodable. -/
def rateLimited429 : HttpResponse :=
  ⟨false, 429, "Too Many Requests", "text/html", none⟩

/-- A track carrying the explicit upstream now-playing marker. -/
def markerTrack : Scrobble :=
  { name := "m", url := none, mbid := none, artist := none, album := none
    image := none, date := none, loved := none, nowplaying := some "true" }

/-- A completed play whose timestamp is the given number of minutes before
the reference wall clock 90000000 ms. -/
def trackAgo (minutesAgo : Int) : Scrobble :=
  { name := "t", url := none, mbid := none, artist := none, album := none
    image := none, date := some (.dateVal (90000000 - minutesAgo * 60000))
    loved := none, nowplaying := none }

/-- An upstream item with no date field at all. -/
def noDateScrobble : Scrobble :=
  { name := "n", url := none, mbid := none, artist := none, album := none
    image := none, date := none, loved := none, nowplaying := none }

end LastFm

/-!
## Helper lemmas
-/

namespace LastFm

/-- Upserting a document leaves it present in the collection. -/
theorem mem_upsertOne_self (store : List Doc) (d : Doc) :
    d ∈ (upsertOne store d).1 := by
  unfold upsertOne
  by_cases h : store.any (fun e => docKey e == docKey d)
  · simp only [h, if_true]
    obtain ⟨e, he, hk⟩ := List.any_eq_true.mp h
    exact List.mem_map.mpr ⟨e, he, by simp [hk]⟩
  · simp [h]

/-- Every document in an upserted collection was already stored or is the
upserted document. -/
theorem mem_upsertOne (store : List Doc) (d d' : Doc)
    (h : d' ∈ (upsertOne store d).1) : d' ∈ store ∨ d' = d := by
  unfold upsertOne at h
  by_cases ha : store.any (fun e => docKey e == docKey d)
  · simp only [ha, if_true] at h
    obtain ⟨e, he, hfe⟩ := List.mem_map.mp h
    by_cases hk : docKey e == docKey d
    · right; simp [hk] at hfe; exact hfe.symm
    · left; simp [hk] at hfe; exact hfe ▸ he
  · simp only [ha, if_false] at h
    rcases List.mem_append.mp h with h1 | h1
    · exact Or.inl h1
    · exact Or.inr (List.mem_singleton.mp h1)

/-- Every document in the collection after the upsert loop was already
stored or is one of the batch's documents. -/
theorem mem_foldl_upsertStep (docs : List Doc) (store : List Doc) (n : Nat)
    (d' : Doc) (h : d' ∈ (docs.foldl upsertStep (store, n)).1) :
    d' ∈ store ∨ d' ∈ docs := by
  induction docs generalizing store n with
  | nil => exact Or.inl h
  | cons d docs ih =>
    simp only [List.foldl_cons] at h
    rcases ih (upsertStep (store, n) d).1 (upsertStep (store, n) d).2 h with h1 | h1
    · rcases mem_upsertOne store d d' h1 with h2 | h2
      · exact Or.inl h2
      · exact Or.inr (h2 ▸ List.mem_cons_self d docs)
    · exact Or.inr (List.mem_cons_of_mem d h1)

/-- The upsert loop counts every document of the batch — inserts and
field-refresh overwrites alike. -/
theorem foldl_upsertStep_snd (docs : List Doc) (store : List Doc) (n : Nat) :
    (docs.foldl upsertStep (store, n)).2 = n + docs.length := by
  induction docs generalizing store n with
  | nil => simp
  | cons d docs ih =>
    simp only [List.foldl_cons, List.length_cons]
    rw [show upsertStep (store, n) d = ((upsertOne store d).1, n + 1) from rfl, ih]
    omega

/-- The page loop requests at most `fuel` pages. -/
theorem pagesRequestedLoop_length_le (maxPages totalPages : Nat) :
    ∀ fuel page, (pagesRequestedLoop maxPages totalPages fuel page).length ≤ fuel := by
  intro fuel
  induction fuel with
  | zero => intro page; simp [pagesRequestedLoop]
  | succ fuel ih =>
    intro page
    unfold pagesRequestedLoop
    split
    · split
      · simpa using Nat.succ_le_succ (ih (page + 1))
      · simp
    · simp

/-- Each fetched page contributes at most 200 items after filtering, so the
first-sync loop returns at most `fuel * 200` items. -/
theorem getAllRecentTracksLoop_length_le (u : Upstream) (maxPages : Nat)
    (h : ∀ p, (u.pages p).length ≤ 200) :
    ∀ fuel page, (getAllRecentTracksLoop u maxPages fuel page).length ≤ fuel * 200 := by
  intro fuel
  induction fuel with
  | zero => intro page; simp [getAllRecentTracksLoop]
  | succ fuel ih =>
    intro page
    unfold getAllRecentTracksLoop
    have hf : (filterScrobbled (u.pages page)).length ≤ 200 :=
      le_trans (List.length_filter_le _ _) (h page)
    split
    · split
      · simp only [List.length_append]
        have := ih (page + 1)
        omega
      · exact le_trans hf (by omega)
    · simp

/-- Everything the first-sync loop returns passed the now-playing filter. -/
theorem mem_getAllRecentTracksLoop (u : Upstream) (maxPages : Nat) :
    ∀ fuel page s, s ∈ getAllRecentTracksLoop u maxPages fuel page →
      isNowPlaying s = false := by
  intro fuel
  induction fuel with
  | zero => intro page s hs; simp [getAllRecentTracksLoop] at hs
  | succ fuel ih =>
    intro page s hs
    unfold getAllRecentTracksLoop at hs
    split at hs
    · split at hs
      · rcases List.mem_append.mp hs with h1 | h1
        · have := (List.mem_filter.mp h1).2
          simpa using this
        · exact ih (page + 1) s h1
      · have := (List.mem_filter.mp hs).2
        simpa using this
    · simp at hs

/-- Everything the incremental loop returns passed the now-playing filter. -/
theorem mem_getNewScrobblesLoop (u : Upstream) :
    ∀ fuel page s, s ∈ getNewScrobblesLoop u fuel page →
      isNowPlaying s = false := by
  intro fuel
  induction fuel with
  | zero => intro page s hs; simp [getNewScrobblesLoop] at hs
  | succ fuel ih =>
    intro page s hs
    unfold getNewScrobblesLoop at hs
    split at hs
    · rcases List.mem_append.mp hs with h1 | h1
      · have := (List.mem_filter.mp h1).2
        simpa using this
      · exact ih (page + 1) s h1
    · have := (List.mem_filter.mp hs).2
      simpa using this

/-- Everything a sync cycle fetches passed the now-playing filter, on the
first-sync path and on the incremental path alike. -/
theorem mem_syncFetch (store : List Doc) (u : Upstream) (s : Scrobble)
    (h : s ∈ syncFetch store u) : isNowPlaying s = false := by
  unfold syncFetch at h
  split at h
  · exact mem_getAllRecentTracksLoop u 10 10 1 s h
  · exact mem_getNewScrobblesLoop u (max u.totalPages 1) 1 s h

/-- For a preferred size that occurs in the priority list, the source's
`indexOf`/`slice` rotation equals the spec-side wrap-around rotation. -/
theorem jsOrderedSizes_eq_spec (preferred : String) (h : preferred ∈ sizePriority) :
    jsOrderedSizes preferred = specWrappedOrder preferred := by
  simp only [sizePriority, List.mem_cons, List.not_mem_nil, or_false] at h
  rcases h with rfl | rfl | rfl | rfl <;> rfl

/-- The loop-plus-fallback of the source equals the spec-side selection on
any size order: the only difference is a redundant emptiness re-check in
the source's fall-back arm. -/
theorem coverFromOrder_eq_spec_select (imgs : List Image) (order : List String) :
    coverFromOrder imgs order =
      match order.findSome? (fun size =>
          match imgs.find? (fun i => i.size == size) with
          | some img => if !img.text.isEmpty then some img.text else none
          | none => none) with
      | some url => some url
      | none =>
        match imgs.find? (fun i => !i.text.isEmpty) with
        | some img => some img.text
        | none => none := by
  unfold coverFromOrder
  cases order.findSome? (fun size =>
      match imgs.find? (fun i => i.size == size) with
      | some img => if !img.text.isEmpty then some img.text else none
      | none => none) with
  | some url => rfl
  | none =>
    cases hf : imgs.find? (fun i => !i.text.isEmpty) with
    | none => rfl
    | some img =>
      have hp := List.find?_some hf
      simp only []
      rw [if_neg]
      simp only [Bool.not_eq_true'] at hp
      simp [hp]

end LastFm

/-!
## Claim theorems
-/

namespace LastFm

/-- C1 (counterexample). The claim says the reported count includes only
newly written events and excludes upserts that merely refresh fields of an
already-stored row, so a second run in succession with no new upstream data
reports `{synced: 0}`.  Concretely: the first cycle against the one-track
upstream stores its single completed play; the second cycle against the
same unchanged upstream re-fetches that already-stored play, writes no new
row (the store is unchanged), yet reports `{synced: 1}`, because the loop
counts the field-refresh upsert. -/
theorem C1_refresh_upsert_counted :
    (syncScrobbles [] oneTrackUpstream exampleNow).1
      = [transformScrobble reSentScrobble exampleNow]
    ∧ syncScrobbles [transformScrobble reSentScrobble exampleNow] oneTrackUpstream exampleNow
      = ([transformScrobble reSentScrobble exampleNow], ⟨1, none⟩) :=
  ⟨rfl, rfl⟩

/-- C1 (amended). A sync cycle whose fetch yields no items reports
`{synced: 0}` and leaves the store unchanged; in general the reported
count equals the number of fetched completed plays that were upserted,
counting field-refresh overwrites of already-stored rows as well as
newly written events. -/
theorem C1_synced_counts_all_upserts (store : List Doc) (u : Upstream) (nowMs : Int) :
    (syncFetch store u = [] → syncScrobbles store u nowMs = (store, ⟨0, none⟩))
    ∧ (syncScrobbles store u nowMs).2 = ⟨(syncFetch store u).length, none⟩ := by
  constructor
  · intro h
    unfold syncScrobbles
    rw [h]
    rfl
  · unfold syncScrobbles
    by_cases h : (syncFetch store u).length = 0
    · simp [h]
    · simp [h, foldl_upsertStep_snd]

/-- C1 (witness): the amended theorem evaluated at an upstream with no
items (second conjunct: at the one-track upstream, whose fetched list has
length 1). -/
theorem C1_synced_counts_all_upserts_witness :
    syncScrobbles [] emptyUpstream 5 = ([], ⟨0, none⟩)
    ∧ (syncScrobbles [] oneTrackUpstream exampleNow).2 = ⟨1, none⟩ := by
  refine ⟨(C1_synced_counts_all_upserts [] emptyUpstream 5).1 rfl, ?_⟩
  exact (C1_synced_counts_all_upserts [] oneTrackUpstream exampleNow).2.trans rfl

/-- C2 (counterexample). The claim says a single `runSync` cycle never
propagates an exception to its caller, in particular that an upstream
fetch failure during `syncScrobbles` does not escape `runSync`.
Concretely: with a database present and credentials configured, a cycle
whose `syncScrobbles` call rejects with "fetch failed" makes `runSync`
itself reject with that exception rather than return a structured
result. -/
theorem C2_fetch_error_escapes_runSync :
    runSync fetchFailedEnv configuredOptions ⟨none, none⟩ 0
      = (.error "fetch failed", ⟨none, none⟩) := rfl

/-- C2 (amended). `runSync` returns structured results for the no-database
and not-configured cases and when `syncScrobbles` resolves (a stats-phase
failure is caught and does not affect the result), but a `syncScrobbles`
rejection propagates out of `runSync`; the scheduler callbacks installed by
`startSync` attach a catch handler, so a failed cycle is consumed there and
the periodic timer keeps running. -/
theorem C2_sync_failure_propagates {α : Type} (env : CycleEnv α) (options : Options)
    (cache : CacheState α) (nowMs : Int)
    (hdb : env.hasDb = true)
    (hkey : strTruthy (getEffectiveSyncOptions env options).apiKey = true)
    (huser : strTruthy (getEffectiveSyncOptions env options).username = true) :
    (∀ e, env.syncOutcome = .error e →
      (runSync env options cache nowMs).1 = .error e
      ∧ schedulerTick env options cache nowMs = cache)
    ∧ (∀ r, env.syncOutcome = .ok r → (runSync env options cache nowMs).1 = .ok r) := by
  constructor
  · intro e he
    have hr : runSync env options cache nowMs = (.error e, cache) := by
      simp [runSync, hdb, hkey, huser, he]
    exact ⟨by rw [hr], by unfold schedulerTick; rw [hr]⟩
  · intro r hr
    cases hst : env.statsOutcome <;>
      simp [runSync, hdb, hkey, huser, hr, hst, schedulerTick]

/-- C2 (witness): the amended theorem evaluated at the concrete failing
cycle — the rejection escapes `runSync` and the scheduler tick consumes
it. -/
theorem C2_sync_failure_propagates_witness :
    (runSync fetchFailedEnv configuredOptions ⟨none, none⟩ 0).1 = .error "fetch failed"
    ∧ schedulerTick fetchFailedEnv configuredOptions ⟨none, none⟩ 0 = ⟨none, none⟩ :=
  (C2_sync_failure_propagates fetchFailedEnv configuredOptions ⟨none, none⟩ 0
    rfl rfl rfl).1 "fetch failed" rfl

/-- C3 (counterexample). The claim says at most one sync cycle executes
against the durable store at any time, a cycle started while a previous
one has not completed being dropped or deferred.  Concretely: after a
timer fire (one cycle active, not yet complete) an admin trigger starts a
second cycle, reaching a state with two cycles executing concurrently —
neither trigger site checks for an in-flight cycle. -/
theorem C3_two_cycles_concurrent :
    schedulerRun [.timerFire] = ⟨1⟩
    ∧ schedulerRun [.timerFire, .adminTrigger] = ⟨2⟩ := by decide

/-- C3 (amended). No single-flight discipline exists: both the periodic
timer callback and the on-demand admin trigger start a cycle
unconditionally, whatever the number of cycles already in flight, so
overlapping executions against the same store are possible. -/
theorem C3_triggers_start_unconditionally (s : SchedulerState) :
    (schedulerStep s .timerFire).activeCycles = s.activeCycles + 1
    ∧ (schedulerStep s .adminTrigger).activeCycles = s.activeCycles + 1 :=
  ⟨rfl, rfl⟩

/-- C4. A populated stats-cache slot is returned verbatim by the read
accessor regardless of the current time — staleness beyond the TTL never
causes blocking, failure or a different value; a never-populated slot
yields `null` from the accessor and the 503 "Stats not available yet"
response at the public-API boundary rather than a hard error. -/
theorem C4_cache_read_policy {α : Type} (st : CacheState α) (nowMs : Int) :
    (∀ s, st.cachedStats = some s → getCachedStats st nowMs = some s)
    ∧ (st.cachedStats = none →
        getCachedStats st nowMs = none
        ∧ statsApiPublic true st nowMs = .notReady
        ∧ (statsApiPublic true st nowMs).status = 503) := by
  constructor
  · intro s hs
    unfold getCachedStats
    rw [hs]
    cases st.cachedStatsTime with
    | none => rfl
    | some t => simp
  · intro hn
    have hg : getCachedStats st nowMs = none := by
      unfold getCachedStats; rw [hn]
    have ha : statsApiPublic true st nowMs = .notReady := by
      unfold statsApiPublic; rw [hg]; rfl
    exact ⟨hg, ha, by rw [ha]; rfl⟩

/-- C4 (witness): a slot written at time 0 and read ten TTLs later is
returned verbatim; an empty slot reads as `none` and produces the
503 response. -/
theorem C4_cache_read_policy_witness :
    getCachedStats (⟨some 7, some 0⟩ : CacheState Nat) (10 * STATS_CACHE_TTL) = some 7
    ∧ getCachedStats (⟨none, none⟩ : CacheState Nat) 0 = none
    ∧ statsApiPublic true (⟨none, none⟩ : CacheState Nat) 0 = .notReady := by
  refine ⟨(C4_cache_read_policy (⟨some 7, some 0⟩ : CacheState Nat) (10 * STATS_CACHE_TTL)).1 7 rfl,
    ((C4_cache_read_policy (⟨none, none⟩ : CacheState Nat) 0).2 rfl).1,
    ((C4_cache_read_policy (⟨none, none⟩ : CacheState Nat) 0).2 rfl).2.1⟩

/-- C5 (counterexample). The claim says the typed error raised for a
non-success non-JSON response carries a transient (retryable)
classification for rate-limit/5xx conditions.  Concretely: a 429 response
with an HTML body raises the typed error carrying status 429, but the
boundary classifies it `retryable: false`, because only statuses 502 and
503 are marked retryable. -/
theorem C5_429_not_retryable :
    clientFetch rateLimited429
      = .indiekitError "Last.fm API returned 429: Too Many Requests" 429
    ∧ controllerCatch (clientFetch rateLimited429) = ⟨429, false⟩ :=
  ⟨rfl, rfl⟩

/-- C5 (amended). For every upstream response with a non-success status and
a non-JSON content type, the client raises exactly one typed error carrying
the HTTP status — never a raw JSON-parse exception, never a silent empty
result — but the retryable classification at the boundary is
`status === 503 || status === 502`, so 429 and other 5xx statuses are
reported as not retryable. -/
theorem C5_typed_error_with_status (r : HttpResponse) (hok : r.ok = false)
    (hct : includesJson r.contentType = false) :
    clientFetch r = .indiekitError
        ("Last.fm API returned " ++ toString r.status ++ ": " ++ r.statusText) r.status
    ∧ clientFetch r ≠ .parseException
    ∧ (∀ d, clientFetch r ≠ .ok d)
    ∧ (controllerCatch (clientFetch r)).retryable = (r.status == 503 || r.status == 502) := by
  have h1 : clientFetch r = .indiekitError
      ("Last.fm API returned " ++ toString r.status ++ ": " ++ r.statusText) r.status := by
    unfold clientFetch
    rw [hok, hct]
    rfl
  refine ⟨h1, by rw [h1]; intro hc; exact FetchOutcome.noConfusion hc,
    fun d => by rw [h1]; intro hc; exact FetchOutcome.noConfusion hc, ?_⟩
  rw [h1]
  unfold controllerCatch errStatus
  by_cases h0 : r.status = 0
  · simp [h0]
  · simp [h0]

/-- C5 (witness): the amended theorem evaluated at the 429/HTML response. -/
theorem C5_typed_error_with_status_witness :
    clientFetch rateLimited429
      = .indiekitError ("Last.fm API returned " ++ toString (429 : Nat) ++ ": "
          ++ "Too Many Requests") 429
    ∧ (controllerCatch (clientFetch rateLimited429)).retryable = false := by
  have h := C5_typed_error_with_status rateLimited429 rfl rfl
  exact ⟨h.1, h.2.2.2⟩

/-- C6. On a first-ever sync the engine requests at most 10 pages, hence —
with the page size capped at 200 by the API request — fetches at most 2000
items; for every sync cycle (first-sync path and incremental path alike)
every fetched item passed the now-playing filter, and every document in
the store after the cycle was either already stored or is the transform of
a fetched item without the now-playing marker. -/
theorem C6_first_sync_bounds (u : Upstream) (store : List Doc) (nowMs : Int) :
    (pagesRequested u 10).length ≤ 10
    ∧ ((∀ p, (u.pages p).length ≤ 200) → (getAllRecentTracks u 10).length ≤ 2000)
    ∧ (latestScrobbledAt store = 0 → syncFetch store u = getAllRecentTracks u 10)
    ∧ (∀ s, s ∈ syncFetch store u → isNowPlaying s = false)
    ∧ (∀ d, d ∈ (syncScrobbles store u nowMs).1 →
        d ∈ store ∨ ∃ s, s ∈ syncFetch store u ∧ isNowPlaying s = false
          ∧ d = transformScrobble s nowMs) := by
  refine ⟨pagesRequestedLoop_length_le 10 u.totalPages 10 1,
    fun h => getAllRecentTracksLoop_length_le u 10 h 10 1,
    fun h => by unfold syncFetch; rw [if_pos h],
    fun s hs => mem_syncFetch store u s hs, fun d hd => ?_⟩
  unfold syncScrobbles at hd
  by_cases h : (syncFetch store u).length = 0
  · simp only [h, if_pos rfl] at hd
    exact Or.inl hd
  · simp only [if_neg h] at hd
    rcases mem_foldl_upsertStep _ _ _ _ hd with h1 | h1
    · exact Or.inl h1
    · obtain ⟨s, hs, hts⟩ := List.mem_map.mp h1
      exact Or.inr ⟨s, hs, mem_syncFetch store u s hs, hts.symm⟩

/-- C6 (witness): the bounds evaluated at an empty upstream and an empty
store (a first-ever sync). -/
theorem C6_first_sync_bounds_witness :
    (pagesRequested emptyUpstream 10).length ≤ 10
    ∧ (getAllRecentTracks emptyUpstream 10).length ≤ 2000
    ∧ syncFetch [] emptyUpstream = getAllRecentTracks emptyUpstream 10 := by
  refine ⟨(C6_first_sync_bounds emptyUpstream [] 0).1,
    (C6_first_sync_bounds emptyUpstream [] 0).2.1 (fun p => ?_),
    (C6_first_sync_bounds emptyUpstream [] 0).2.2.1 rfl⟩
  simp [emptyUpstream]

/-- C7. The playing-status classifier returns "now-playing" when the
explicit upstream marker is set; otherwise, with age measured against the
current wall clock in minutes (`diffMins`), an age under 60 minutes
classifies as "now-playing", an age in [60, 24·60) minutes as
"recently-played", and an age of at least 24·60 minutes yields no
status. -/
theorem C7_playing_status_boundaries (t : Scrobble) (nowMs : Int) :
    (t.nowplaying = some "true" → getPlayingStatus t nowMs = some "now-playing")
    ∧ (t.nowplaying ≠ some "true" →
        ((((nowMs - parseDate t.date nowMs : Int) : ℚ) / 60000 < 60 →
            getPlayingStatus t nowMs = some "now-playing")
          ∧ (60 ≤ ((nowMs - parseDate t.date nowMs : Int) : ℚ) / 60000 →
              ((nowMs - parseDate t.date nowMs : Int) : ℚ) / 60000 < 24 * 60 →
              getPlayingStatus t nowMs = some "recently-played")
          ∧ (24 * 60 ≤ ((nowMs - parseDate t.date nowMs : Int) : ℚ) / 60000 →
              getPlayingStatus t nowMs = none))) := by
  constructor
  · intro h
    unfold getPlayingStatus
    rw [if_pos h]
  · intro h
    unfold getPlayingStatus
    rw [if_neg h]
    refine ⟨fun h1 => ?_, fun h1 h2 => ?_, fun h1 => ?_⟩
    · show (if ((nowMs - parseDate t.date nowMs : Int) : ℚ) / 60000 < 60 then
          some "now-playing"
        else if ((nowMs - parseDate t.date nowMs : Int) : ℚ) / 60000 < 24 * 60 then
          some "recently-played"
        else none) = some "now-playing"
      rw [if_pos h1]
    · show (if ((nowMs - parseDate t.date nowMs : Int) : ℚ) / 60000 < 60 then
          some "now-playing"
        else if ((nowMs - parseDate t.date nowMs : Int) : ℚ) / 60000 < 24 * 60 then
          some "recently-played"
        else none) = some "recently-played"
      rw [if_neg (not_lt.mpr h1), if_pos h2]
    · show (if ((nowMs - parseDate t.date nowMs : Int) : ℚ) / 60000 < 60 then
          some "now-playing"
        else if ((nowMs - parseDate t.date nowMs : Int) : ℚ) / 60000 < 24 * 60 then
          some "recently-played"
        else none) = none
      have h60 : ¬ ((nowMs - parseDate t.date nowMs : Int) : ℚ) / 60000 < 60 := by
        intro hc; linarith
      have h24 : ¬ ((nowMs - parseDate t.date nowMs : Int) : ℚ) / 60000 < 24 * 60 :=
        not_lt.mpr h1
      rw [if_neg h60, if_neg h24]

/-- C7 (witness): a marker track is "now-playing"; plays 59 minutes,
61 minutes and 25 hours old are "now-playing", "recently-played" and
status-free respectively. -/
theorem C7_playing_status_boundaries_witness :
    getPlayingStatus markerTrack 90000000 = some "now-playing"
    ∧ getPlayingStatus (trackAgo 59) 90000000 = some "now-playing"
    ∧ getPlayingStatus (trackAgo 61) 90000000 = some "recently-played"
    ∧ getPlayingStatus (trackAgo (25 * 60)) 90000000 = none := by
  refine ⟨(C7_playing_status_boundaries markerTrack 90000000).1 rfl,
    ((C7_playing_status_boundaries (trackAgo 59) 90000000).2 (by decide)).1
      (by norm_num [trackAgo, parseDate]),
    ((C7_playing_status_boundaries (trackAgo 61) 90000000).2 (by decide)).2.1
      (by norm_num [trackAgo, parseDate]) (by norm_num [trackAgo, parseDate]),
    ((C7_playing_status_boundaries (trackAgo (25 * 60)) 90000000).2 (by decide)).2.2
      (by norm_num [trackAgo, parseDate])⟩

/-- C8. For every image-variant list and every preferred size occurring in
the documented priority order, the source's cover selection equals the
spec-side selection that tries sizes starting at the preferred size and
wrapping through the fixed order, returns the first tried size whose
variant has a non-empty URL, falls back to the first variant with any
usable URL, and yields null when none exists; in particular, with only
"small" and "large" present and preference "extralarge", it returns the
"large" URL. -/
theorem C8_cover_url_wrapping (imgs : List Image) (preferred : String)
    (h : preferred ∈ sizePriority) :
    getCoverUrl (some imgs) preferred = specCoverUrl imgs preferred
    ∧ getCoverUrl (some [⟨"small", "u1"⟩, ⟨"large", "u2"⟩]) "extralarge" = some "u2" := by
  refine ⟨?_, rfl⟩
  show coverFromOrder imgs (jsOrderedSizes preferred) = specCoverUrl imgs preferred
  rw [jsOrderedSizes_eq_spec preferred h, coverFromOrder_eq_spec_select]
  rfl

/-- C8 (witness): the equivalence evaluated at the two-variant list with
preference "extralarge", where the selection wraps to "large". -/
theorem C8_cover_url_wrapping_witness :
    "extralarge" ∈ sizePriority
    ∧ getCoverUrl (some [⟨"small", "u1"⟩, ⟨"large", "u2"⟩]) "extralarge"
      = specCoverUrl [⟨"small", "u1"⟩, ⟨"large", "u2"⟩] "extralarge"
    ∧ getCoverUrl (some [⟨"small", "u1"⟩, ⟨"large", "u2"⟩]) "extralarge" = some "u2" := by
  refine ⟨by decide,
    (C8_cover_url_wrapping [⟨"small", "u1"⟩, ⟨"large", "u2"⟩] "extralarge" (by decide)).1,
    (C8_cover_url_wrapping [⟨"small", "u1"⟩, ⟨"large", "u2"⟩] "extralarge" (by decide)).2⟩

/-- C9. The stats-cache read accessor is extensionally equal to the
function that simply returns the current cache slot: for every cache state
and every current time, the recorded write timestamp and the 5-minute TTL
have no effect on the value returned, so reads never observe an
eviction. -/
theorem C9_read_equals_slot {α : Type} (st : CacheState α) (nowMs : Int) :
    getCachedStats st nowMs = returnSlot st := by
  unfold getCachedStats returnSlot
  rcases st with ⟨cs, ct⟩
  cases cs with
  | none => rfl
  | some s =>
    cases ct with
    | none => rfl
    | some t => simp

/-- C10. Timestamp parsing is total (the embedding is a total function, as
the source returns a `Date` on every path): a missing date input yields
the current wall-clock time, so `transformScrobble` gives an item with no
date field a `scrobbledAt` equal to the time of transformation, and the
upsert of that document leaves it present in the store with that synthetic
timestamp. -/
theorem C10_parse_date_defaults_now (nowMs : Int) (s : Scrobble) (store : List Doc) :
    parseDate none nowMs = nowMs
    ∧ (s.date = none →
        (transformScrobble s nowMs).scrobbledAt = nowMs
        ∧ transformScrobble s nowMs ∈ (upsertOne store (transformScrobble s nowMs)).1) := by
  refine ⟨rfl, fun h => ⟨?_, mem_upsertOne_self store _⟩⟩
  unfold transformScrobble
  rw [h]
  rfl

/-- C10 (witness): the date-free scrobble transformed at time 5 is stored
with `scrobbledAt = 5`. -/
theorem C10_parse_date_defaults_now_witness :
    (transformScrobble noDateScrobble 5).scrobbledAt = 5
    ∧ transformScrobble noDateScrobble 5
        ∈ (upsertOne [] (transformScrobble noDateScrobble 5)).1 := by
  exact (C10_parse_date_defaults_now 5 noDateScrobble []).2 rfl

end LastFm
